import Mathlib

/-!
Shallow embedding of the golem test-framework fleet supervisor and of the
API-definition registration handlers, for verification of the specification.

Sources embedded:
- golem-test-framework/src/components/worker_executor_cluster/spawned.rs
  (SpawnedWorkerExecutorCluster: new, size, kill_all, restart_all, stop,
  start, stopped_indices, started_indices, Drop)
- golem-test-framework/src/components/worker_service/spawned.rs
  (SpawnedWorkerService: new_base, blocking_kill, client, accessors, Drop)
- golem-worker-service/src/api/register_api_definition_api.rs
  (register_api and the two PUT handlers)

Modelling conventions: machine integers are Nat with explicit reduction
modulo 2^16 where u16 arithmetic occurs; Rust panics and `expect` failures
are Except.error; side effects on the external world (killing a process,
restarting it, dialing a gRPC endpoint) are recorded in explicit effect
lists; the `stopped` HashSet is a Finset Nat (its Vec snapshot views are
exposed as Finsets, since HashSet iteration order is unspecified).
-/

/-- Reduction of a Nat to u16 range, modelling Rust `as u16` truncation and
wrapping u16 arithmetic. -/
def u16 (x : Nat) : Nat := x % 65536

/-- One spawned worker executor, as configured by the cluster constructor.
Mirrors the ports handed to `SpawnedWorkerExecutor::new` (the spawner itself
lives outside the embedded sources; only its port configuration is relevant
here). -/
structure Member where
  http_port : Nat
  grpc_port : Nat
deriving DecidableEq, Repr

/-- The port assignment loop of `SpawnedWorkerExecutorCluster::new`:
for i in 0..size, `http_port = base_http_port + i as u16` and
`grpc_port = base_grpc_port + i as u16` (u16 arithmetic). -/
def mkMembers (size base_http_port base_grpc_port : Nat) : List Member :=
  (List.range size).map fun i =>
    { http_port := u16 (base_http_port + u16 i)
      grpc_port := u16 (base_grpc_port + u16 i) }

/-- Observable side effects of cluster lifecycle operations, identified by
member index: `worker_executor.kill()` and `worker_executor.restart().await`. -/
inductive Effect where
  | kill (i : Nat)
  | restart (i : Nat)
deriving DecidableEq, Repr

/-- State of a `SpawnedWorkerExecutorCluster`: the ordered member vector
`worker_executors` and the `stopped_indices` set (`Arc<Mutex<HashSet<usize>>>`
in the source; the lock-holding discipline is modelled separately by the
trace functions below). -/
structure SpawnedWorkerExecutorCluster where
  members : List Member
  stopped : Finset Nat
deriving DecidableEq

/-- `SpawnedWorkerExecutorCluster::new`: spawns `size` members with ports
`base + i` and starts with an empty stopped set. -/
def SpawnedWorkerExecutorCluster.new (size base_http_port base_grpc_port : Nat) :
    SpawnedWorkerExecutorCluster :=
  { members := mkMembers size base_http_port base_grpc_port, stopped := ∅ }

/-- `size(): self.worker_executors.len()`. -/
def SpawnedWorkerExecutorCluster.size (c : SpawnedWorkerExecutorCluster) : Nat :=
  c.members.length

/-- `stopped_indices()`: snapshot of the stopped set. -/
def SpawnedWorkerExecutorCluster.stopped_indices (c : SpawnedWorkerExecutorCluster) :
    Finset Nat :=
  c.stopped

/-- `started_indices()`: `HashSet::from_iter(0..len).difference(stopped)`. -/
def SpawnedWorkerExecutorCluster.started_indices (c : SpawnedWorkerExecutorCluster) :
    Finset Nat :=
  Finset.range c.members.length \ c.stopped

/-- `stop(index)`: under the lock, if the index is not in `stopped`, kill
`worker_executors[index]` and insert the index. The Rust vector indexing
panics (modelled as Except.error) when `index >= len`; when the index is
already in `stopped` the body is skipped entirely, so no bounds check is
reached. -/
def SpawnedWorkerExecutorCluster.stop (c : SpawnedWorkerExecutorCluster) (i : Nat) :
    Except String (SpawnedWorkerExecutorCluster × List Effect) :=
  if i ∈ c.stopped then Except.ok (c, [])
  else if i < c.members.length then
    Except.ok ({ c with stopped := insert i c.stopped }, [Effect.kill i])
  else Except.error "index out of bounds"

/-- `start(index)`: if the index is in the `stopped_indices()` snapshot,
restart `worker_executors[index]` (awaited) and then remove the index;
otherwise do nothing. As in the source, an index not in `stopped` reaches no
bounds check: the call returns without any error or effect. -/
def SpawnedWorkerExecutorCluster.start (c : SpawnedWorkerExecutorCluster) (i : Nat) :
    Except String (SpawnedWorkerExecutorCluster × List Effect) :=
  if i ∈ c.stopped then
    if i < c.members.length then
      Except.ok ({ c with stopped := c.stopped.erase i }, [Effect.restart i])
    else Except.error "index out of bounds"
  else Except.ok (c, [])

/-- `kill_all()`: `for worker_executor in &self.worker_executors { worker_executor.kill(); }`.
The stopped set is not consulted and not modified. -/
def SpawnedWorkerExecutorCluster.kill_all (c : SpawnedWorkerExecutorCluster) :
    SpawnedWorkerExecutorCluster × List Effect :=
  (c, (List.range c.members.length).map Effect.kill)

/-- `restart_all()`: `for worker_executor in &self.worker_executors { worker_executor.restart().await; }`.
Each restart is awaited in order; the stopped set is not consulted and not
modified. -/
def SpawnedWorkerExecutorCluster.restart_all (c : SpawnedWorkerExecutorCluster) :
    SpawnedWorkerExecutorCluster × List Effect :=
  (c, (List.range c.members.length).map Effect.restart)

/-- A per-member lifecycle call, for reasoning about arbitrary call
sequences on a cluster. -/
inductive Call where
  | stopCall (i : Nat)
  | startCall (i : Nat)
deriving DecidableEq, Repr

/-- The index a call addresses. -/
def Call.index : Call → Nat
  | Call.stopCall i => i
  | Call.startCall i => i

/-- Dispatch one call on the cluster. -/
def SpawnedWorkerExecutorCluster.applyCall (c : SpawnedWorkerExecutorCluster) :
    Call → Except String (SpawnedWorkerExecutorCluster × List Effect)
  | Call.stopCall i => c.stop i
  | Call.startCall i => c.start i

/-- Run a sequence of stop/start calls, threading the cluster state and
stopping at the first panic. -/
def runCalls (c : SpawnedWorkerExecutorCluster) :
    List Call → Except String SpawnedWorkerExecutorCluster
  | [] => Except.ok c
  | call :: rest =>
    match c.applyCall call with
    | Except.error e => Except.error e
    | Except.ok (c2, _) => runCalls c2 rest

/-! ### Lock-trace model of the lifecycle operations

The source guards `stopped_indices` with `Arc<Mutex<_>>`. Each lifecycle
operation is rendered as the sequence of lock acquisitions/releases and
slow operations (synchronous kill, awaited restart) its body performs, in
program order, so that lock-holding discipline is checkable. -/

/-- An event in the execution of one lifecycle operation. -/
inductive LockEvent where
  | acquire
  | release
  | killMember (i : Nat)
  | restartAwait (i : Nat)
deriving DecidableEq, Repr

/-- Event trace of `stop(index)`: `self.stopped_indices.lock()` acquires the
mutex; the guard lives to the end of the function, so the conditional
`worker_executors[index].kill()` runs before the release. -/
def stopTrace (stopped : Finset Nat) (i : Nat) : List LockEvent :=
  LockEvent.acquire ::
    (if i ∈ stopped then [] else [LockEvent.killMember i]) ++ [LockEvent.release]

/-- Event trace of `start(index)`: `self.stopped_indices()` locks and
releases to take the snapshot; the awaited `restart()` then runs with no
lock held, and the removal re-acquires and releases. -/
def startTrace (stopped : Finset Nat) (i : Nat) : List LockEvent :=
  [LockEvent.acquire, LockEvent.release] ++
    (if i ∈ stopped then
      [LockEvent.restartAwait i, LockEvent.acquire, LockEvent.release]
    else [])

/-- Event trace of `kill_all()`: plain iteration, the mutex is never touched. -/
def killAllTrace (n : Nat) : List LockEvent :=
  (List.range n).map LockEvent.killMember

/-- Event trace of `restart_all()`: plain iteration, the mutex is never touched. -/
def restartAllTrace (n : Nat) : List LockEvent :=
  (List.range n).map LockEvent.restartAwait

/-- The kill/restart events of a trace that occur while the lock is held
(lock depth above zero). -/
def eventsInsideLock : List LockEvent → Nat → List LockEvent
  | [], _ => []
  | LockEvent.acquire :: rest, d => eventsInsideLock rest (d + 1)
  | LockEvent.release :: rest, d => eventsInsideLock rest (d - 1)
  | e :: rest, d => (if 0 < d then [e] else []) ++ eventsInsideLock rest d

/-! ### SpawnedWorkerService -/

/-- An RPC client value, identified by the endpoint it was built against
(`WorkerServiceClient<Channel>` in the source). -/
structure Client where
  host : String
  port : Nat
deriving DecidableEq, Repr

/-- Modelled from the spec: `new_client(host, port)` (defined in
`worker_service/mod.rs`, outside the embedded sources) dials `host:port` and
either returns a client bound to that endpoint or fails with a client
construction error if the endpoint cannot be dialed. Whether the dial
succeeds is an environment fact, passed in as `dialOk`. -/
def new_client (dialOk : Bool) (host : String) (port : Nat) : Except String Client :=
  if dialOk then Except.ok { host := host, port := port }
  else Except.error "transport error"

/-- Observable side effects of the worker-service spawner. -/
inductive SvcEffect where
  | spawnProcess
  | waitStartup (port : Nat)
  | newClientCall (host : String) (port : Nat)
  | killSignal
deriving DecidableEq, Repr

/-- State of a `SpawnedWorkerService`: the three ports, the
`Arc<Mutex<Option<Child>>>` process handle (a present handle is `some ()`),
and the optional shared client. The `_logger` field carries no observable
state and is elided. -/
structure SpawnedWorkerService where
  http_port : Nat
  grpc_port : Nat
  custom_request_port : Nat
  child : Option Unit
  client : Option Client
deriving DecidableEq, Repr

/-- `SpawnedWorkerService::new_base`: checks the executable, spawns the
child (both failures panic, modelled as Except.error), waits for startup on
the gRPC port, then — only when `shared_client` is true — builds one client
eagerly, where a construction failure hits `.expect("Failed to create client")`
and panics. Environment facts (executable present, OS spawn success, endpoint
dialable) are passed as booleans. -/
def new_base (executableExists spawnOk dialOk : Bool)
    (http_port grpc_port custom_request_port : Nat) (shared_client : Bool) :
    Except String (SpawnedWorkerService × List SvcEffect) :=
  if !executableExists then
    Except.error "Expected to have precompiled golem-worker-service"
  else if !spawnOk then
    Except.error "Failed to start golem-worker-service"
  else if shared_client then
    match new_client dialOk "localhost" grpc_port with
    | Except.ok c =>
      Except.ok
        ({ http_port := http_port, grpc_port := grpc_port
           custom_request_port := custom_request_port
           child := some (), client := some c },
         [SvcEffect.spawnProcess, SvcEffect.waitStartup grpc_port,
          SvcEffect.newClientCall "localhost" grpc_port])
    | Except.error _ => Except.error "Failed to create client"
  else
    Except.ok
      ({ http_port := http_port, grpc_port := grpc_port
         custom_request_port := custom_request_port
         child := some (), client := none },
       [SvcEffect.spawnProcess, SvcEffect.waitStartup grpc_port])

/-- `WorkerService::client()` for the spawned service: return a clone of the
cached client when one exists, otherwise construct a fresh client against
the current `grpc_port`, propagating any construction error to the caller.
(The receiver is `&self`: the call never changes the service state.) -/
def WorkerService.client (dialOk : Bool) (s : SpawnedWorkerService) :
    Except String Client × List SvcEffect :=
  match s.client with
  | some c => (Except.ok c, [])
  | none => (new_client dialOk "localhost" s.grpc_port,
             [SvcEffect.newClientCall "localhost" s.grpc_port])

/-- `blocking_kill`: take the child handle out of the mutex; if one was
present, send it the kill signal (result ignored); otherwise do nothing. -/
def blocking_kill (s : SpawnedWorkerService) : SpawnedWorkerService × List SvcEffect :=
  match s.child with
  | some _ => ({ s with child := none }, [SvcEffect.killSignal])
  | none => (s, [])

/-- `WorkerService::kill` for the spawned service delegates to `blocking_kill`. -/
def WorkerService.kill (s : SpawnedWorkerService) : SpawnedWorkerService × List SvcEffect :=
  blocking_kill s

/-- `Drop for SpawnedWorkerService` delegates to `blocking_kill`. -/
def dropSpawnedWorkerService (s : SpawnedWorkerService) :
    SpawnedWorkerService × List SvcEffect :=
  blocking_kill s

/-- `private_grpc_port()`. -/
def WorkerService.private_grpc_port (s : SpawnedWorkerService) : Nat :=
  s.grpc_port

/-- `private_http_port()`. -/
def WorkerService.private_http_port (s : SpawnedWorkerService) : Nat :=
  s.http_port

/-! ### API-definition registration handlers -/

/-- An API definition, reduced to the identity fields the handlers consult. -/
structure ApiDefinition where
  id : String
  version : String
deriving DecidableEq, Repr

/-- `ApiRegistrationError` from the definition service. -/
inductive ApiRegistrationError where
  | AlreadyExists (msg : String)
  | InternalError (msg : String)
  | AuthenticationError (msg : String)
deriving DecidableEq, Repr

/-- `ApiEndpointError` variants produced by the handlers
(`bad_request`, `unauthorized`, `already_exists`, `internal`, `not_found`). -/
inductive ApiEndpointError where
  | BadRequest (msg : String)
  | Unauthorized (msg : String)
  | AlreadyExists (msg : String)
  | Internal (msg : String)
  | NotFound (msg : String)
deriving DecidableEq, Repr

/-- Modelled from the spec: the HTTP status each `ApiEndpointError` variant
renders to. The rendering lives in `golem_worker_service_base::api::common`,
outside the embedded sources; the in-file test `conflict_error_returned`
pins `already_exists` to 409 CONFLICT, and the other variants carry the
standard statuses their names denote (bad request 400, unauthorized 401,
internal server error 500, not found 404). -/
def ApiEndpointError.status : ApiEndpointError → Nat
  | ApiEndpointError.BadRequest _ => 400
  | ApiEndpointError.Unauthorized _ => 401
  | ApiEndpointError.AlreadyExists _ => 409
  | ApiEndpointError.Internal _ => 500
  | ApiEndpointError.NotFound _ => 404

/-- The `match reg_error` arms inside `register_api`: `AlreadyExists`
becomes `already_exists`, `InternalError` becomes `bad_request`,
`AuthenticationError(msg)` becomes `unauthorized(msg)`. (The first two pass
the displayed registration error as the message; its text is carried through
unchanged here.) -/
def registerErrorToEndpoint : ApiRegistrationError → ApiEndpointError
  | ApiRegistrationError.AlreadyExists m => ApiEndpointError.AlreadyExists m
  | ApiRegistrationError.InternalError m => ApiEndpointError.BadRequest m
  | ApiRegistrationError.AuthenticationError m => ApiEndpointError.Unauthorized m

/-- `register_api`: forward the definition service's register result,
mapping a registration error through the arms above. The service call
itself is external; its result is the parameter. -/
def register_api (registerResult : Except ApiRegistrationError Unit) :
    Except ApiEndpointError Unit :=
  match registerResult with
  | Except.ok _ => Except.ok ()
  | Except.error e => Except.error (registerErrorToEndpoint e)

/-- The PUT `/` handler `create_or_update`: convert the JSON payload
(`try_into`, errors become `bad_request`), register, re-read the stored
definition (`get`, errors become `internal`, a missing row becomes
`not_found`), and convert back (errors become `internal`). External calls
are parameters. -/
def create_or_update (payloadConv : Except String ApiDefinition)
    (registerResult : Except ApiRegistrationError Unit)
    (getResult : Except String (Option ApiDefinition))
    (convBack : ApiDefinition → Except String ApiDefinition) :
    Except ApiEndpointError ApiDefinition :=
  match payloadConv with
  | Except.error e => Except.error (ApiEndpointError.BadRequest e)
  | Except.ok _ =>
    match register_api registerResult with
    | Except.error e => Except.error e
    | Except.ok _ =>
      match getResult with
      | Except.error e => Except.error (ApiEndpointError.Internal e)
      | Except.ok none => Except.error (ApiEndpointError.NotFound "API Definition not found")
      | Except.ok (some d) =>
        match convBack d with
        | Except.error e => Except.error (ApiEndpointError.Internal e)
        | Except.ok v => Except.ok v

/-- The PUT `/oas` handler `create_or_update_open_api`: parse the OpenAPI
payload (`get_api_definition`, errors become `bad_request`), then the same
register / re-read / convert pipeline as the JSON form. -/
def create_or_update_open_api (parsed : Except String ApiDefinition)
    (registerResult : Except ApiRegistrationError Unit)
    (getResult : Except String (Option ApiDefinition))
    (convBack : ApiDefinition → Except String ApiDefinition) :
    Except ApiEndpointError ApiDefinition :=
  match parsed with
  | Except.error e => Except.error (ApiEndpointError.BadRequest e)
  | Except.ok _ =>
    match register_api registerResult with
    | Except.error e => Except.error e
    | Except.ok _ =>
      match getResult with
      | Except.error e => Except.error (ApiEndpointError.Internal e)
      | Except.ok none => Except.error (ApiEndpointError.NotFound "API Definition not found")
      | Except.ok (some d) =>
        match convBack d with
        | Except.error e => Except.error (ApiEndpointError.Internal e)
        | Except.ok v => Except.ok v

/-- HTTP status of a handler response: an error renders at its variant's
status, a success renders 200 OK. -/
def responseStatus (r : Except ApiEndpointError ApiDefinition) : Nat :=
  match r with
  | Except.error e => e.status
  | Except.ok _ => 200

/-! ### Theorems -/

/-- Helper for C1: running any sequence of stop/start calls whose indices are
within bounds never panics, preserves the member vector, and keeps the
stopped set inside `[0, members.length)`. -/
theorem runCalls_invariant (calls : List Call) (c : SpawnedWorkerExecutorCluster)
    (hsub : c.stopped ⊆ Finset.range c.members.length)
    (hvalid : ∀ call ∈ calls, Call.index call < c.members.length) :
    ∃ c2, runCalls c calls = Except.ok c2 ∧ c2.members = c.members ∧
      c2.stopped ⊆ Finset.range c.members.length := by
  induction calls generalizing c with
  | nil => exact ⟨c, rfl, rfl, hsub⟩
  | cons call rest ih =>
    have hcall : Call.index call < c.members.length := hvalid call (by simp)
    have hrest : ∀ cl ∈ rest, Call.index cl < c.members.length := by
      intro cl hcl
      exact hvalid cl (by simp [hcl])
    cases call with
    | stopCall i =>
      simp only [Call.index] at hcall
      by_cases hmem : i ∈ c.stopped
      · have heq : runCalls c (Call.stopCall i :: rest) = runCalls c rest := by
          simp [runCalls, SpawnedWorkerExecutorCluster.applyCall,
                SpawnedWorkerExecutorCluster.stop, hmem]
        rw [heq]
        exact ih c hsub hrest
      · have heq : runCalls c (Call.stopCall i :: rest) =
            runCalls { c with stopped := insert i c.stopped } rest := by
          simp [runCalls, SpawnedWorkerExecutorCluster.applyCall,
                SpawnedWorkerExecutorCluster.stop, hmem, hcall]
        have hsub2 : ({ c with stopped := insert i c.stopped } :
            SpawnedWorkerExecutorCluster).stopped ⊆
            Finset.range ({ c with stopped := insert i c.stopped } :
              SpawnedWorkerExecutorCluster).members.length :=
          Finset.insert_subset (Finset.mem_range.mpr hcall) hsub
        rw [heq]
        exact ih { c with stopped := insert i c.stopped } hsub2 hrest
    | startCall i =>
      simp only [Call.index] at hcall
      by_cases hmem : i ∈ c.stopped
      · have heq : runCalls c (Call.startCall i :: rest) =
            runCalls { c with stopped := c.stopped.erase i } rest := by
          simp [runCalls, SpawnedWorkerExecutorCluster.applyCall,
                SpawnedWorkerExecutorCluster.start, hmem, hcall]
        have hsub2 : ({ c with stopped := c.stopped.erase i } :
            SpawnedWorkerExecutorCluster).stopped ⊆
            Finset.range ({ c with stopped := c.stopped.erase i } :
              SpawnedWorkerExecutorCluster).members.length :=
          Finset.Subset.trans (Finset.erase_subset i c.stopped) hsub
        rw [heq]
        exact ih { c with stopped := c.stopped.erase i } hsub2 hrest
      · have heq : runCalls c (Call.startCall i :: rest) = runCalls c rest := by
          simp [runCalls, SpawnedWorkerExecutorCluster.applyCall,
                SpawnedWorkerExecutorCluster.start, hmem]
        rw [heq]
        exact ih c hsub hrest

/-- C1: for every cluster constructed with size n and every sequence of
stop/start calls on indices in [0, n), `stopped_indices()` stays a subset of
[0, n), `stopped_indices()` and `started_indices()` are disjoint and their
union is exactly [0, n); immediately after construction `stopped_indices()`
is empty and `size()` is n. -/
theorem C1_partition_invariant (n bh bg : Nat) (calls : List Call)
    (hvalid : ∀ call ∈ calls, Call.index call < n) :
    (SpawnedWorkerExecutorCluster.new n bh bg).size = n ∧
    (SpawnedWorkerExecutorCluster.new n bh bg).stopped_indices = ∅ ∧
    ∃ c2, runCalls (SpawnedWorkerExecutorCluster.new n bh bg) calls = Except.ok c2 ∧
      c2.stopped_indices ⊆ Finset.range n ∧
      Disjoint c2.stopped_indices c2.started_indices ∧
      c2.stopped_indices ∪ c2.started_indices = Finset.range n := by
  have hlen : (SpawnedWorkerExecutorCluster.new n bh bg).members.length = n := by
    simp [SpawnedWorkerExecutorCluster.new, mkMembers]
  refine ⟨by simp [SpawnedWorkerExecutorCluster.size, hlen], rfl, ?_⟩
  obtain ⟨c2, hrun, hmem, hsub⟩ :=
    runCalls_invariant calls (SpawnedWorkerExecutorCluster.new n bh bg)
      (by simp [SpawnedWorkerExecutorCluster.new])
      (by rw [hlen]; exact hvalid)
  rw [hlen] at hsub
  have hlen2 : c2.members.length = n := by rw [hmem, hlen]
  refine ⟨c2, hrun, hsub, ?_, ?_⟩
  · simpa [SpawnedWorkerExecutorCluster.stopped_indices,
           SpawnedWorkerExecutorCluster.started_indices] using
      Finset.disjoint_sdiff
  · simp only [SpawnedWorkerExecutorCluster.stopped_indices,
               SpawnedWorkerExecutorCluster.started_indices, hlen2]
    exact Finset.union_sdiff_of_subset hsub

/-- Witness for C1 at a 3-member cluster and the call sequence
stop 1, start 1, stop 0, stop 0. -/
theorem C1_partition_invariant_witness :
    (SpawnedWorkerExecutorCluster.new 3 9000 9100).size = 3 ∧
    (SpawnedWorkerExecutorCluster.new 3 9000 9100).stopped_indices = ∅ ∧
    ∃ c2, runCalls (SpawnedWorkerExecutorCluster.new 3 9000 9100)
        [Call.stopCall 1, Call.startCall 1, Call.stopCall 0, Call.stopCall 0]
        = Except.ok c2 ∧
      c2.stopped_indices ⊆ Finset.range 3 ∧
      Disjoint c2.stopped_indices c2.started_indices ∧
      c2.stopped_indices ∪ c2.started_indices = Finset.range 3 :=
  C1_partition_invariant 3 9000 9100
    [Call.stopCall 1, Call.startCall 1, Call.stopCall 0, Call.stopCall 0]
    (by decide)

/-- C2: `stop(i)` on an index already in the stopped set is a no-op (no kill
effect, state unchanged), and `start(i)` on an index not in the stopped set
is a no-op (no restart effect, state unchanged). -/
theorem C2_stop_start_idempotent (c : SpawnedWorkerExecutorCluster) (i : Nat) :
    (i ∈ c.stopped_indices → c.stop i = Except.ok (c, [])) ∧
    (i ∉ c.stopped_indices → c.start i = Except.ok (c, [])) := by
  constructor
  · intro h
    simp [SpawnedWorkerExecutorCluster.stop,
          SpawnedWorkerExecutorCluster.stopped_indices] at *
    simp [h]
  · intro h
    simp [SpawnedWorkerExecutorCluster.stopped_indices] at h
    simp [SpawnedWorkerExecutorCluster.start, h]

/-- Witness for C2: a one-member cluster with member 0 stopped ignores a
second stop, and a freshly built cluster ignores a start of member 0. -/
theorem C2_stop_start_idempotent_witness :
    SpawnedWorkerExecutorCluster.stop
        { members := mkMembers 1 9000 9100, stopped := {0} } 0
      = Except.ok ({ members := mkMembers 1 9000 9100, stopped := {0} }, []) ∧
    SpawnedWorkerExecutorCluster.start (SpawnedWorkerExecutorCluster.new 1 9000 9100) 0
      = Except.ok (SpawnedWorkerExecutorCluster.new 1 9000 9100, []) :=
  ⟨(C2_stop_start_idempotent { members := mkMembers 1 9000 9100, stopped := {0} } 0).1
      (by decide),
   (C2_stop_start_idempotent (SpawnedWorkerExecutorCluster.new 1 9000 9100) 0).2
      (by decide)⟩

/-- Counterexample to C3: on a 1-member cluster, `start(1)` with the
out-of-range index 1 does not report any error — the membership test on the
stopped set fails first, so the call returns silently with no effect,
whereas the claim says an IndexOutOfRange error is reported immediately for
both `stop` and `start`. -/
theorem C3_counterexample :
    (SpawnedWorkerExecutorCluster.new 1 9000 9100).size = 1 ∧
    SpawnedWorkerExecutorCluster.start (SpawnedWorkerExecutorCluster.new 1 9000 9100) 1
      = Except.ok (SpawnedWorkerExecutorCluster.new 1 9000 9100, []) := by
  exact ⟨rfl, rfl⟩

/-- C3 (amended): for an index ≥ size that is not in the stopped set (the
only reachable situation for an out-of-range index), `stop(index)` fails
immediately with the index-out-of-bounds panic, leaving the stopped set
unchanged and killing no process; `start(index)` is a silent no-op that
reports no error and has no effect. -/
theorem C3_out_of_range (c : SpawnedWorkerExecutorCluster) (i : Nat)
    (hge : c.size ≤ i) (hns : i ∉ c.stopped_indices) :
    c.stop i = Except.error "index out of bounds" ∧
    c.start i = Except.ok (c, []) := by
  have hns2 : i ∉ c.stopped := hns
  have hlt : ¬ i < c.members.length := Nat.not_lt.mpr hge
  constructor
  · simp [SpawnedWorkerExecutorCluster.stop, hns2, hlt]
  · simp [SpawnedWorkerExecutorCluster.start, hns2]

/-- Witness for the amended C3 on a 1-member cluster at index 1. -/
theorem C3_out_of_range_witness :
    SpawnedWorkerExecutorCluster.stop (SpawnedWorkerExecutorCluster.new 1 9000 9100) 1
      = Except.error "index out of bounds" ∧
    SpawnedWorkerExecutorCluster.start (SpawnedWorkerExecutorCluster.new 1 9000 9100) 1
      = Except.ok (SpawnedWorkerExecutorCluster.new 1 9000 9100, []) :=
  C3_out_of_range (SpawnedWorkerExecutorCluster.new 1 9000 9100) 1 (by decide) (by decide)

/-- C4: `kill_all()` kills the member at every index below size — including
indices in the stopped set — and leaves the stopped set (and all cluster
state) unchanged; `restart_all()` restarts every member in order, awaiting
each, and likewise leaves the stopped set unchanged. -/
theorem C4_lifecycle_frame (c : SpawnedWorkerExecutorCluster) :
    c.kill_all.1.stopped_indices = c.stopped_indices ∧
    c.kill_all.2 = (List.range c.size).map Effect.kill ∧
    c.restart_all.1.stopped_indices = c.stopped_indices ∧
    c.restart_all.2 = (List.range c.size).map Effect.restart ∧
    (∀ i, i < c.size → Effect.kill i ∈ c.kill_all.2 ∧
      Effect.restart i ∈ c.restart_all.2) := by
  refine ⟨rfl, rfl, rfl, rfl, fun i hi => ⟨?_, ?_⟩⟩
  · exact List.mem_map_of_mem Effect.kill (List.mem_range.mpr hi)
  · exact List.mem_map_of_mem Effect.restart (List.mem_range.mpr hi)

/-- Witness for C4 on a 2-member cluster with member 1 stopped: both
cluster-wide operations touch the stopped member too and keep the stopped
set intact. -/
theorem C4_lifecycle_frame_witness :
    ({ members := mkMembers 2 9000 9100, stopped := {1} } :
        SpawnedWorkerExecutorCluster).kill_all.1.stopped_indices
      = ({ members := mkMembers 2 9000 9100, stopped := {1} } :
        SpawnedWorkerExecutorCluster).stopped_indices ∧
    ({ members := mkMembers 2 9000 9100, stopped := {1} } :
        SpawnedWorkerExecutorCluster).kill_all.2
      = (List.range 2).map Effect.kill ∧
    (Effect.kill 1 ∈ ({ members := mkMembers 2 9000 9100, stopped := {1} } :
        SpawnedWorkerExecutorCluster).kill_all.2 ∧
      Effect.restart 1 ∈ ({ members := mkMembers 2 9000 9100, stopped := {1} } :
        SpawnedWorkerExecutorCluster).restart_all.2) :=
  ⟨(C4_lifecycle_frame { members := mkMembers 2 9000 9100, stopped := {1} }).1,
   (C4_lifecycle_frame { members := mkMembers 2 9000 9100, stopped := {1} }).2.1,
   (C4_lifecycle_frame { members := mkMembers 2 9000 9100, stopped := {1} }).2.2.2.2 1
     (by decide)⟩

/-- Counterexample to C5: with size 2, base HTTP port 9000 and base gRPC
port 9001 — well inside the 16-bit range, no wraparound — member 0 is
configured with gRPC port 9001 and member 1 with HTTP port 9001: two
distinct members share port 9001, refuting the claim that no two members of
the cluster share a port. -/
theorem C5_counterexample :
    9000 + 2 ≤ 65536 ∧ 9001 + 2 ≤ 65536 ∧
    (mkMembers 2 9000 9001)[0]? = some { http_port := 9000, grpc_port := 9001 } ∧
    (mkMembers 2 9000 9001)[1]? = some { http_port := 9001, grpc_port := 9002 } := by
  refine ⟨by norm_num, by norm_num, by decide, by decide⟩

/-- C5 (amended): member i is configured with `http_port = h + i` and
`grpc_port = g + i`; absent 16-bit wraparound, two distinct members never
share an HTTP port and never share a gRPC port, and when additionally the
two base port ranges are disjoint no two members share any port at all. -/
theorem C5_port_assignment (n h g i j : Nat) (hi : i < n) (hj : j < n) (hij : i ≠ j)
    (hh : h + n ≤ 65536) (hg : g + n ≤ 65536) :
    (mkMembers n h g)[i]? = some { http_port := h + i, grpc_port := g + i } ∧
    (mkMembers n h g)[j]? = some { http_port := h + j, grpc_port := g + j } ∧
    h + i ≠ h + j ∧ g + i ≠ g + j ∧
    ((h + n ≤ g ∨ g + n ≤ h) → (h + i ≠ g + j ∧ g + i ≠ h + j)) := by
  have hmem : ∀ k, k < n → (mkMembers n h g)[k]? =
      some { http_port := h + k, grpc_port := g + k } := by
    intro k hk
    have h1 : u16 k = k := Nat.mod_eq_of_lt (by omega)
    have h2 : u16 (h + u16 k) = h + k := by
      rw [h1]
      exact Nat.mod_eq_of_lt (by omega)
    have h3 : u16 (g + u16 k) = g + k := by
      rw [h1]
      exact Nat.mod_eq_of_lt (by omega)
    simp [mkMembers, List.getElem?_map, List.getElem?_range hk, h2, h3]
  refine ⟨hmem i hi, hmem j hj, by omega, by omega, fun hdisj => ⟨by omega, by omega⟩⟩

/-- Witness for the amended C5 on a 2-member cluster with disjoint base
ranges 9000 and 9100. -/
theorem C5_port_assignment_witness :
    (mkMembers 2 9000 9100)[0]? = some { http_port := 9000 + 0, grpc_port := 9100 + 0 } ∧
    (mkMembers 2 9000 9100)[1]? = some { http_port := 9000 + 1, grpc_port := 9100 + 1 } ∧
    9000 + 0 ≠ 9000 + 1 ∧ 9100 + 0 ≠ 9100 + 1 ∧
    (9000 + 0 ≠ 9100 + 1 ∧ 9100 + 0 ≠ 9000 + 1) := by
  have hmain := C5_port_assignment 2 9000 9100 0 1 (by decide) (by decide) (by decide)
    (by norm_num) (by norm_num)
  exact ⟨hmain.1, hmain.2.1, hmain.2.2.1, hmain.2.2.2.1,
         hmain.2.2.2.2 (Or.inl (by norm_num))⟩

/-- Counterexample to C6: with `shared_client = true` and a gRPC endpoint
that cannot be dialed, the eager client construction in `new_base` hits
`.expect("Failed to create client")` and aborts the spawn — the failure is
raised at spawn time and destroys the owning service, not surfaced at a
later `client()` call as the claim states for both policies. -/
theorem C6_counterexample :
    new_base true true false 9005 9007 9006 true
      = Except.error "Failed to create client" := by
  exact rfl

/-- C6 (amended): under `shared_client = false`, a client-construction
failure is surfaced exactly at the `client()` call and returned to that
caller; it leaves the service intact (its ports still answer and a later
`client()` call against a now-dialable endpoint succeeds). Under
`shared_client = true` the one client is built at spawn time: a construction
failure there aborts the spawn with a panic, and a successfully spawned
shared-client service never surfaces a construction error from `client()`. -/
theorem C6_client_error_surfacing (http grpc custom : Nat) :
    new_base true true false http grpc custom false
      = Except.ok
          ({ http_port := http, grpc_port := grpc, custom_request_port := custom,
             child := some (), client := none },
           [SvcEffect.spawnProcess, SvcEffect.waitStartup grpc]) ∧
    WorkerService.client false
        { http_port := http, grpc_port := grpc, custom_request_port := custom,
          child := some (), client := none }
      = (Except.error "transport error", [SvcEffect.newClientCall "localhost" grpc]) ∧
    WorkerService.client true
        { http_port := http, grpc_port := grpc, custom_request_port := custom,
          child := some (), client := none }
      = (Except.ok { host := "localhost", port := grpc },
         [SvcEffect.newClientCall "localhost" grpc]) ∧
    WorkerService.private_grpc_port
        { http_port := http, grpc_port := grpc, custom_request_port := custom,
          child := some (), client := none } = grpc ∧
    new_base true true false http grpc custom true
      = Except.error "Failed to create client" ∧
    WorkerService.client false
        { http_port := http, grpc_port := grpc, custom_request_port := custom,
          child := some (), client := some { host := "localhost", port := grpc } }
      = (Except.ok { host := "localhost", port := grpc }, []) := by
  exact ⟨rfl, rfl, rfl, rfl, rfl, rfl⟩

/-- C7: with `shared_client = true`, exactly one client is constructed at
spawn time (one `newClientCall` effect in the spawn trace) and every
`client()` call returns that same cached client without constructing
anything; with `shared_client = false`, spawning constructs no client and
every `client()` call runs a fresh `new_client` against the service's
current gRPC port. -/
theorem C7_client_policy (http grpc custom : Nat) (d : Bool) :
    new_base true true true http grpc custom true
      = Except.ok
          ({ http_port := http, grpc_port := grpc, custom_request_port := custom,
             child := some (), client := some { host := "localhost", port := grpc } },
           [SvcEffect.spawnProcess, SvcEffect.waitStartup grpc,
            SvcEffect.newClientCall "localhost" grpc]) ∧
    WorkerService.client d
        { http_port := http, grpc_port := grpc, custom_request_port := custom,
          child := some (), client := some { host := "localhost", port := grpc } }
      = (Except.ok { host := "localhost", port := grpc }, []) ∧
    new_base true true d http grpc custom false
      = Except.ok
          ({ http_port := http, grpc_port := grpc, custom_request_port := custom,
             child := some (), client := none },
           [SvcEffect.spawnProcess, SvcEffect.waitStartup grpc]) ∧
    WorkerService.client d
        { http_port := http, grpc_port := grpc, custom_request_port := custom,
          child := some (), client := none }
      = (new_client d "localhost" grpc, [SvcEffect.newClientCall "localhost" grpc]) := by
  exact ⟨rfl, rfl, rfl, rfl⟩

/-- C8: the first kill of a service whose process handle is still registered
takes the handle and sends the termination signal; every further kill —
through `kill()`, another `blocking_kill`, or the teardown `Drop` — finds
the handle consumed and is a silent no-op, for arbitrarily many repetitions. -/
theorem C8_kill_idempotent (s : SpawnedWorkerService) (h : s.child = some ()) :
    blocking_kill s = ({ s with child := none }, [SvcEffect.killSignal]) ∧
    blocking_kill { s with child := none } = ({ s with child := none }, []) ∧
    WorkerService.kill { s with child := none } = ({ s with child := none }, []) ∧
    dropSpawnedWorkerService { s with child := none } = ({ s with child := none }, []) ∧
    (∀ k, (fun t => (blocking_kill t).1)^[k] { s with child := none }
      = { s with child := none }) := by
  have hfix : (fun t => (blocking_kill t).1) { s with child := none }
      = { s with child := none } := rfl
  refine ⟨?_, rfl, rfl, rfl, fun k => Function.iterate_fixed hfix k⟩
  simp [blocking_kill, h]

/-- Witness for C8 on a concrete spawned service. -/
theorem C8_kill_idempotent_witness :
    blocking_kill { http_port := 9090, grpc_port := 9091, custom_request_port := 9092,
                    child := some (), client := none }
      = ({ http_port := 9090, grpc_port := 9091, custom_request_port := 9092,
           child := none, client := none }, [SvcEffect.killSignal]) ∧
    blocking_kill { http_port := 9090, grpc_port := 9091, custom_request_port := 9092,
                    child := none, client := none }
      = ({ http_port := 9090, grpc_port := 9091, custom_request_port := 9092,
           child := none, client := none }, []) ∧
    (fun t => (blocking_kill t).1)^[5]
        { http_port := 9090, grpc_port := 9091, custom_request_port := 9092,
          child := none, client := none }
      = { http_port := 9090, grpc_port := 9091, custom_request_port := 9092,
          child := none, client := none } := by
  have hmain := C8_kill_idempotent
    { http_port := 9090, grpc_port := 9091, custom_request_port := 9092,
      child := some (), client := none } rfl
  exact ⟨hmain.1, hmain.2.1, hmain.2.2.2.2 5⟩

/-- Helper for C9: a successful `stop` changes nothing but the stopped set. -/
theorem stop_preserves_members (c : SpawnedWorkerExecutorCluster) (i : Nat)
    (p : SpawnedWorkerExecutorCluster × List Effect)
    (hp : c.stop i = Except.ok p) : p.1.members = c.members := by
  unfold SpawnedWorkerExecutorCluster.stop at hp
  split at hp
  · cases hp
    rfl
  · split at hp
    · cases hp
      rfl
    · cases hp

/-- Helper for C9: a successful `start` changes nothing but the stopped set. -/
theorem start_preserves_members (c : SpawnedWorkerExecutorCluster) (i : Nat)
    (p : SpawnedWorkerExecutorCluster × List Effect)
    (hp : c.start i = Except.ok p) : p.1.members = c.members := by
  unfold SpawnedWorkerExecutorCluster.start at hp
  split at hp
  · split at hp
    · cases hp
      rfl
    · cases hp
  · cases hp
    rfl

/-- Counterexample to C9: in `stop(0)` on a freshly constructed cluster, the
member kill happens while the stopped-set mutex is held — the guard returned
by `lock()` lives until the end of the function, so the kill event sits at
lock depth 1, whereas the claim says the lock is never held across killing a
member. -/
theorem C9_counterexample :
    eventsInsideLock
        (stopTrace (SpawnedWorkerExecutorCluster.new 1 9000 9100).stopped_indices 0) 0
      = [LockEvent.killMember 0] := by
  decide

/-- C9 (amended): the stopped set is the only cluster state the lifecycle
operations mutate (a successful stop/start leaves the member vector intact),
and in `start`, `kill_all` and `restart_all` the lock is never held across a
kill or an awaited restart; in `stop`, however, the synchronous kill of the
member is performed while the lock is held. -/
theorem C9_lock_discipline (stopped : Finset Nat) (i n : Nat)
    (c : SpawnedWorkerExecutorCluster) :
    eventsInsideLock (startTrace stopped i) 0 = [] ∧
    eventsInsideLock (killAllTrace n) 0 = [] ∧
    eventsInsideLock (restartAllTrace n) 0 = [] ∧
    (i ∉ stopped → eventsInsideLock (stopTrace stopped i) 0 = [LockEvent.killMember i]) ∧
    (∀ p, c.stop i = Except.ok p → p.1.members = c.members) ∧
    (∀ p, c.start i = Except.ok p → p.1.members = c.members) := by
  have hkills : ∀ m : List Nat, eventsInsideLock (m.map LockEvent.killMember) 0 = [] := by
    intro m
    induction m with
    | nil => rfl
    | cons a t ih => exact ih
  have hrestarts : ∀ m : List Nat,
      eventsInsideLock (m.map LockEvent.restartAwait) 0 = [] := by
    intro m
    induction m with
    | nil => rfl
    | cons a t ih => exact ih
  refine ⟨?_, hkills (List.range n), hrestarts (List.range n), ?_, ?_, ?_⟩
  · unfold startTrace
    by_cases h : i ∈ stopped
    · rw [if_pos h]
      rfl
    · rw [if_neg h]
      rfl
  · intro h
    unfold stopTrace
    rw [if_neg h]
    rfl
  · exact fun p hp => stop_preserves_members c i p hp
  · exact fun p hp => start_preserves_members c i p hp

/-- Witness for the amended C9: stopped set {1}, index 0, a 2-member
cluster; stop(0)'s kill is inside the locked region, the other operations
hold the lock across nothing slow, and concrete stop/start results keep the
member vector. -/
theorem C9_lock_discipline_witness :
    eventsInsideLock (startTrace ({1} : Finset Nat) 0) 0 = [] ∧
    eventsInsideLock (killAllTrace 2) 0 = [] ∧
    eventsInsideLock (restartAllTrace 2) 0 = [] ∧
    eventsInsideLock (stopTrace ({1} : Finset Nat) 0) 0 = [LockEvent.killMember 0] ∧
    ({ members := mkMembers 2 9000 9100, stopped := insert 0 ∅ } :
        SpawnedWorkerExecutorCluster).members
      = (SpawnedWorkerExecutorCluster.new 2 9000 9100).members ∧
    (SpawnedWorkerExecutorCluster.new 2 9000 9100).members
      = (SpawnedWorkerExecutorCluster.new 2 9000 9100).members := by
  have hmain := C9_lock_discipline ({1} : Finset Nat) 0 2
    (SpawnedWorkerExecutorCluster.new 2 9000 9100)
  refine ⟨hmain.1, hmain.2.1, hmain.2.2.1, hmain.2.2.2.1 (by decide), ?_, ?_⟩
  · exact hmain.2.2.2.2.1
      ({ members := mkMembers 2 9000 9100, stopped := insert 0 ∅ }, [Effect.kill 0]) rfl
  · exact hmain.2.2.2.2.2
      (SpawnedWorkerExecutorCluster.new 2 9000 9100, []) rfl

/-- C10: when the definition service's register call fails, both PUT
handlers (the JSON form and the OpenAPI form) map the failure kind
deterministically: `AlreadyExists` renders as the 409 conflict response,
`InternalError` renders as the 400 bad-request response — not as a 500
internal-server-error response — and `AuthenticationError` renders as the
401 unauthorized response. -/
theorem C10_register_error_mapping (m : String) (defn : ApiDefinition)
    (getResult : Except String (Option ApiDefinition))
    (convBack : ApiDefinition → Except String ApiDefinition) :
    responseStatus (create_or_update (Except.ok defn)
        (Except.error (ApiRegistrationError.AlreadyExists m)) getResult convBack) = 409 ∧
    responseStatus (create_or_update (Except.ok defn)
        (Except.error (ApiRegistrationError.InternalError m)) getResult convBack) = 400 ∧
    responseStatus (create_or_update (Except.ok defn)
        (Except.error (ApiRegistrationError.AuthenticationError m)) getResult convBack) = 401 ∧
    responseStatus (create_or_update_open_api (Except.ok defn)
        (Except.error (ApiRegistrationError.AlreadyExists m)) getResult convBack) = 409 ∧
    responseStatus (create_or_update_open_api (Except.ok defn)
        (Except.error (ApiRegistrationError.InternalError m)) getResult convBack) = 400 ∧
    responseStatus (create_or_update_open_api (Except.ok defn)
        (Except.error (ApiRegistrationError.AuthenticationError m)) getResult convBack) = 401 ∧
    register_api (Except.error (ApiRegistrationError.AlreadyExists m))
      = Except.error (ApiEndpointError.AlreadyExists m) ∧
    register_api (Except.error (ApiRegistrationError.InternalError m))
      = Except.error (ApiEndpointError.BadRequest m) ∧
    register_api (Except.error (ApiRegistrationError.AuthenticationError m))
      = Except.error (ApiEndpointError.Unauthorized m) ∧
    (ApiEndpointError.BadRequest m).status ≠ (ApiEndpointError.Internal m).status := by
  refine ⟨rfl, rfl, rfl, rfl, rfl, rfl, rfl, rfl, rfl, ?_⟩
  show (400 : Nat) ≠ 500
  omega
